import Mathlib

/-!
Shallow embedding of the Solana example programs in this repository
(`src/solana/*.rs`) and proofs about the claims of the specification.

Modelling conventions:
* `Pubkey` is a natural number standing for the opaque 32-byte address;
  it is serialized as 32 little-endian bytes of `n % 2^256`.
* Account data (`dataBytes`) is a `List Nat` of bytes; borsh
  `try_from_slice` is modelled by decoders that require the exact
  length (borsh rejects trailing bytes) and byte-validity, and borsh
  `serialize(&mut &mut data[..])` is modelled by a prefix write that
  fails with `Err.writeError` after writing the prefix that fits,
  matching `std::io::Write for &mut [u8]` (`write_all` writes as many
  bytes as fit before erroring).
* `u64` arithmetic uses `Nat` with explicit `% 2^64` wrapping where the
  source uses raw `+`/`-`/`*` (the sources are built in release mode,
  where Rust integer arithmetic wraps, as the files' own comments state:
  "this panics in debug or wraps in release").  `u64` division by zero
  always panics in Rust; a panic aborts the program, modelled by
  `Err.panicked`.
* `i64` values are `Int` with explicit two's-complement wrapping.
* Each entrypoint/handler is a function from its positionally bound
  accounts (a structure, one field per `next_account_info` binding,
  accounts assumed distinct) and instruction arguments to
  `Option Err × state`: `(some e, s')` is an aborted run (the state it
  leaves behind is `s'`), `(none, s')` a successful one.
-/

set_option maxRecDepth 100000

namespace VulnSol

deriving instance DecidableEq for Except

abbrev Pubkey := Nat
abbrev Bytes := List Nat

/-- The modulus of `u64` arithmetic, 2^64. -/
def U64M : Nat := 2 ^ 64

/-- Wrapping `u64` addition (release-mode `+` on `u64`). -/
def wrapAdd (a b : Nat) : Nat := (a + b) % U64M

/-- Wrapping `u64` subtraction (release-mode `-` on `u64`). -/
def wrapSub (a b : Nat) : Nat := (a % U64M + U64M - b % U64M) % U64M

/-- Wrapping `u64` multiplication (release-mode `*` on `u64`). -/
def wrapMul (a b : Nat) : Nat := (a * b) % U64M

/-- Wrapping `i64` arithmetic result: reduce an integer into
`[-2^63, 2^63)` by two's complement. -/
def wrapI64 (x : Int) : Int := (x + 2 ^ 63) % (2 ^ 64 : Int) - 2 ^ 63

/-- The Rust cast `x as u64` for an `i64` value `x`. -/
def i64AsU64 (x : Int) : Nat := (x % (2 ^ 64 : Int)).toNat

/-- The `k` little-endian bytes of `n` (serialization of fixed-width ints
and of the 32 raw bytes of a `Pubkey`). -/
def leBytes : Nat → Nat → Bytes
  | 0, _ => []
  | k + 1, n => n % 256 :: leBytes k (n / 256)

/-- Value of a little-endian byte string. -/
def leVal : Bytes → Nat
  | [] => 0
  | b :: bs => b + 256 * leVal bs

/-- Serialization of an `i64` (two's complement little-endian). -/
def i64Bytes (x : Int) : Bytes := leBytes 8 ((x % (2 ^ 64 : Int)).toNat)

/-- Deserialization of an `i64` from 8 little-endian bytes. -/
def i64Val (bs : Bytes) : Int :=
  if leVal bs < 2 ^ 63 then (leVal bs : Int) else (leVal bs : Int) - 2 ^ 64

/-- Real byte buffers only hold values below 256. -/
def validBytes (bs : Bytes) : Bool := bs.all (fun b => decide (b < 256))

theorem leBytes_length (k : Nat) : ∀ n, (leBytes k n).length = k := by
  induction k with
  | zero => intro n; rfl
  | succ k ih => intro n; simp [leBytes, ih]

/-- One account handle as the runtime hands it to the program:
`key`/`owner` are addresses, `is_signer` the signature fact,
`lamports` the balance, `data` the account's byte buffer. -/
structure Account where
  key : Pubkey
  owner : Pubkey
  is_signer : Bool
  lamports : Nat
  data : Bytes
deriving DecidableEq

/-- The error outcomes the embedded programs can produce
(`ProgramError` variants, borsh decode/write failures, Rust panics). -/
inductive Err where
  | incorrectProgramId
  | missingRequiredSignature
  | invalidAccountData
  | invalidInstructionData
  | insufficientFunds
  | invalidSeeds
  | decodeError
  | writeError
  | panicked
deriving DecidableEq

/-- The spec's own error taxonomy (section 7), used only by the
definitions that are modelled from the spec for comparison. -/
inductive SpecErr where
  | arithmeticOverflow
  | divisionByZero
deriving DecidableEq

/-- Modelled from the spec: the Checked Arithmetic Engine's `add`,
which "fails with `ArithmeticOverflow`" instead of wrapping. -/
def checkedAdd (a b : Nat) : Except SpecErr Nat :=
  if a + b < U64M then .ok (a + b) else .error .arithmeticOverflow

/-- Modelled from the spec: `proportionalShare(numeratorA, numeratorB,
denominator)` computes `(a*b)/d` with multiplication before division,
failing with `DivisionByZero` when `d == 0` and with
`ArithmeticOverflow` when the widened intermediate product leaves the
`u64` domain. -/
def proportionalShare (a b d : Nat) : Except SpecErr Nat :=
  if d = 0 then .error .divisionByZero
  else if U64M ≤ a * b then .error .arithmeticOverflow
  else .ok (a * b / d)

/-- Modelled from the spec: `computeWithdrawable(handle, costModel) =
handle.lamportBalance.saturatingSub(minimumBalance)` (`Nat`
subtraction is saturating). -/
def computeWithdrawable (lamports minimumBalance : Nat) : Nat :=
  lamports - minimumBalance

/-! ## `src/solana/account_data_matching.rs` -/

namespace AccountDataMatching

/-- The `UserProfile { owner, escrow_account, total_deposits }` (72 bytes). -/
structure UserProfile where
  owner : Pubkey
  escrow_account : Pubkey
  total_deposits : Nat
deriving DecidableEq

/-- The `EscrowAccount { beneficiary, amount, release_time }` (48 bytes). -/
structure EscrowAccount where
  beneficiary : Pubkey
  amount : Nat
  release_time : Int
deriving DecidableEq

/-- The `TokenVault { authority, token_account }` (64 bytes). -/
structure TokenVault where
  authority : Pubkey
  token_account : Pubkey
deriving DecidableEq

def encodeUserProfile (r : UserProfile) : Bytes :=
  leBytes 32 r.owner ++ leBytes 32 r.escrow_account ++ leBytes 8 r.total_deposits

def decodeUserProfile (bs : Bytes) : Option UserProfile :=
  if bs.length = 72 ∧ validBytes bs = true then
    some { owner := leVal (bs.take 32)
           escrow_account := leVal ((bs.drop 32).take 32)
           total_deposits := leVal (bs.drop 64) }
  else none

def encodeEscrowAccount (r : EscrowAccount) : Bytes :=
  leBytes 32 r.beneficiary ++ leBytes 8 r.amount ++ i64Bytes r.release_time

def decodeEscrowAccount (bs : Bytes) : Option EscrowAccount :=
  if bs.length = 48 ∧ validBytes bs = true then
    some { beneficiary := leVal (bs.take 32)
           amount := leVal ((bs.drop 32).take 8)
           release_time := i64Val (bs.drop 40) }
  else none

def encodeTokenVault (r : TokenVault) : Bytes :=
  leBytes 32 r.authority ++ leBytes 32 r.token_account

def decodeTokenVault (bs : Bytes) : Option TokenVault :=
  if bs.length = 64 ∧ validBytes bs = true then
    some { authority := leVal (bs.take 32)
           token_account := leVal ((bs.drop 32).take 32) }
  else none

/-- The accounts `process_instruction` binds positionally. -/
structure Accounts where
  user_profile_account : Account
  escrow_account : Account
  beneficiary_account : Account
  signer_account : Account
deriving DecidableEq

/-- The `process_instruction` of `account_data_matching.rs` (lines 36-93):
owner checks on profile and escrow, signer check, decode both records,
profile-owner check, release-time check (placeholder time 1000000),
then zero the escrow amount, write it back and move the lamports.
The relationship checks the comments call for are absent, exactly as
in the source. -/
def process_instruction (program_id : Pubkey) (s : Accounts) : Option Err × Accounts :=
  if s.user_profile_account.owner ≠ program_id then (some .incorrectProgramId, s)
  else if s.escrow_account.owner ≠ program_id then (some .incorrectProgramId, s)
  else if s.signer_account.is_signer = false then (some .missingRequiredSignature, s)
  else
    match decodeUserProfile s.user_profile_account.data with
    | none => (some .decodeError, s)
    | some user_profile =>
      match decodeEscrowAccount s.escrow_account.data with
      | none => (some .decodeError, s)
      | some escrow_data =>
        if user_profile.owner ≠ s.signer_account.key then (some .invalidAccountData, s)
        else if (1000000 : Int) < escrow_data.release_time then (some .invalidAccountData, s)
        else if (encodeEscrowAccount { escrow_data with amount := 0 }).length ≤
            s.escrow_account.data.length then
          (none,
           { s with
             escrow_account :=
               { s.escrow_account with
                 data := encodeEscrowAccount { escrow_data with amount := 0 } ++
                   s.escrow_account.data.drop
                     (encodeEscrowAccount { escrow_data with amount := 0 }).length,
                 lamports := wrapSub s.escrow_account.lamports escrow_data.amount },
             beneficiary_account :=
               { s.beneficiary_account with
                 lamports := wrapAdd s.beneficiary_account.lamports escrow_data.amount } })
        else
          (some .writeError,
           { s with
             escrow_account :=
               { s.escrow_account with
                 data := (encodeEscrowAccount { escrow_data with amount := 0 }).take
                   s.escrow_account.data.length } })

/-- The accounts `vulnerable_token_withdraw` binds positionally. -/
structure TwAccounts where
  vault_account : Account
  token_account : Account
  authority : Account
deriving DecidableEq

/-- The `vulnerable_token_withdraw` (lines 195-223): signer check, decode
the vault, authority check, then only logs (no state mutation). -/
def vulnerable_token_withdraw (_program_id : Pubkey) (s : TwAccounts) :
    Option Err × TwAccounts :=
  if s.authority.is_signer = false then (some .missingRequiredSignature, s)
  else
    match decodeTokenVault s.vault_account.data with
    | none => (some .decodeError, s)
    | some vault_data =>
      if vault_data.authority ≠ s.authority.key then (some .invalidAccountData, s)
      else (none, s)

end AccountDataMatching

/-! ## `src/solana/missing_owner_check.rs` -/

namespace MissingOwnerCheck

/-- The `VaultData { authority, balance }` (40 bytes). -/
structure VaultData where
  authority : Pubkey
  balance : Nat
deriving DecidableEq

def encodeVaultData (r : VaultData) : Bytes :=
  leBytes 32 r.authority ++ leBytes 8 r.balance

def decodeVaultData (bs : Bytes) : Option VaultData :=
  if bs.length = 40 ∧ validBytes bs = true then
    some { authority := leVal (bs.take 32), balance := leVal (bs.drop 32) }
  else none

/-- The accounts `process_instruction` binds positionally. -/
structure Accounts where
  vault_account : Account
  authority_account : Account
  recipient_account : Account
deriving DecidableEq

/-- The `process_instruction` of `missing_owner_check.rs` (lines 28-66):
decodes the vault data with no ownership check (and no signer check),
checks only the stored authority field, then debits the vault record
and moves the lamports.  `amount` is the `u64` read from
`instruction_data[0..8]`. -/
def process_instruction (_program_id : Pubkey) (s : Accounts) (amount : Nat) :
    Option Err × Accounts :=
  match decodeVaultData s.vault_account.data with
  | none => (some .decodeError, s)
  | some vault_data =>
    if vault_data.authority ≠ s.authority_account.key then (some .invalidAccountData, s)
    else if (encodeVaultData { vault_data with
        balance := wrapSub vault_data.balance amount }).length ≤
        s.vault_account.data.length then
      (none,
       { s with
         vault_account :=
           { s.vault_account with
             data := encodeVaultData { vault_data with
                 balance := wrapSub vault_data.balance amount } ++
               s.vault_account.data.drop
                 (encodeVaultData { vault_data with
                   balance := wrapSub vault_data.balance amount }).length,
             lamports := wrapSub s.vault_account.lamports amount },
         recipient_account :=
           { s.recipient_account with
             lamports := wrapAdd s.recipient_account.lamports amount } })
    else
      (some .writeError,
       { s with
         vault_account :=
           { s.vault_account with
             data := (encodeVaultData { vault_data with
               balance := wrapSub vault_data.balance amount }).take
                 s.vault_account.data.length } })

end MissingOwnerCheck

/-! ## `src/solana/missing_signer_check.rs` -/

namespace MissingSignerCheck

/-- The accounts `process_instruction` binds positionally. -/
structure Accounts where
  user_account : Account
  destination_account : Account
deriving DecidableEq

/-- The `process_instruction` of `missing_signer_check.rs` (lines 21-45):
no check at all that `user_account` signed; it just moves `amount`
lamports from `user_account` to `destination_account`. -/
def process_instruction (_program_id : Pubkey) (s : Accounts) (amount : Nat) :
    Option Err × Accounts :=
  (none,
   { s with
     user_account :=
       { s.user_account with lamports := wrapSub s.user_account.lamports amount },
     destination_account :=
       { s.destination_account with
         lamports := wrapAdd s.destination_account.lamports amount } })

end MissingSignerCheck

/-! ## `src/solana/pda_issues.rs` -/

namespace PdaIssues

/-- The `UserData { owner, balance }` (40 bytes). -/
structure UserData where
  owner : Pubkey
  balance : Nat
deriving DecidableEq

def encodeUserData (r : UserData) : Bytes :=
  leBytes 32 r.owner ++ leBytes 8 r.balance

def decodeUserData (bs : Bytes) : Option UserData :=
  if bs.length = 40 ∧ validBytes bs = true then
    some { owner := leVal (bs.take 32), balance := leVal (bs.drop 32) }
  else none

/-- The accounts `process_instruction` binds positionally. -/
structure Accounts where
  user_account : Account
  pda_account : Account
  recipient_account : Account
deriving DecidableEq

/-- The `process_instruction` of `pda_issues.rs` (lines 28-76): signer
check, ownership check on the PDA account, decode, stored-owner check
and balance check, then debit.  No recomputation of the PDA address
from seeds appears anywhere, exactly as in the source. -/
def process_instruction (program_id : Pubkey) (s : Accounts) (amount : Nat) :
    Option Err × Accounts :=
  if s.user_account.is_signer = false then (some .missingRequiredSignature, s)
  else if s.pda_account.owner ≠ program_id then (some .incorrectProgramId, s)
  else
    match decodeUserData s.pda_account.data with
    | none => (some .decodeError, s)
    | some user_data =>
      if user_data.owner ≠ s.user_account.key then (some .invalidAccountData, s)
      else if user_data.balance < amount then (some .insufficientFunds, s)
      else if (encodeUserData { user_data with
          balance := user_data.balance - amount }).length ≤
          s.pda_account.data.length then
        (none,
         { s with
           pda_account :=
             { s.pda_account with
               data := encodeUserData { user_data with
                   balance := user_data.balance - amount } ++
                 s.pda_account.data.drop
                   (encodeUserData { user_data with
                     balance := user_data.balance - amount }).length,
               lamports := wrapSub s.pda_account.lamports amount },
           recipient_account :=
             { s.recipient_account with
               lamports := wrapAdd s.recipient_account.lamports amount } })
      else
        (some .writeError,
         { s with
           pda_account :=
             { s.pda_account with
               data := (encodeUserData { user_data with
                 balance := user_data.balance - amount }).take
                   s.pda_account.data.length } })

/-- The bytes of the seed literal `b"vault"`. -/
def vaultSeed : Bytes := [118, 97, 117, 108, 116]

/-- The `vulnerable_with_bump` (lines 160-183): takes the bump byte from
caller input, derives `create_program_address([b"vault", [bump]])` and
compares with the supplied account — never searching for the canonical
bump.  `create_program_address` is an external deterministic function
of the runtime, taken here as a parameter. -/
def vulnerable_with_bump
    (create_program_address : List Bytes → Pubkey → Option Pubkey)
    (program_id : Pubkey) (pda_account : Account) (bump : Nat) :
    Option Err × Account :=
  match create_program_address [vaultSeed, [bump]] program_id with
  | none => (some .invalidSeeds, pda_account)
  | some pda =>
    if pda ≠ pda_account.key then (some .invalidSeeds, pda_account)
    else (none, pda_account)

end PdaIssues

/-! ## `src/solana/reinitialization.rs` -/

namespace Reinitialization

/-- The `VaultConfig { authority, total_deposited, fee_percentage }`
(41 bytes; `fee_percentage` is a `u8`). -/
structure VaultConfig where
  authority : Pubkey
  total_deposited : Nat
  fee_percentage : Nat
deriving DecidableEq

def encodeVaultConfig (r : VaultConfig) : Bytes :=
  leBytes 32 r.authority ++ leBytes 8 r.total_deposited ++ leBytes 1 r.fee_percentage

def decodeVaultConfig (bs : Bytes) : Option VaultConfig :=
  if bs.length = 41 ∧ validBytes bs = true then
    some { authority := leVal (bs.take 32)
           total_deposited := leVal ((bs.drop 32).take 8)
           fee_percentage := leVal (bs.drop 40) }
  else none

/-- The accounts both handlers bind positionally. -/
structure Accounts where
  vault_account : Account
  authority_account : Account
deriving DecidableEq

/-- The `initialize` of `reinitialization.rs` (lines 43-79): owner check,
signer check, then unconditionally writes a fresh `VaultConfig` whose
authority is the caller and whose `total_deposited` is zero.  There is
no already-initialized check, exactly as in the source. -/
def initialize_vault (program_id : Pubkey) (s : Accounts) (fee_percentage : Nat) :
    Option Err × Accounts :=
  if s.vault_account.owner ≠ program_id then (some .incorrectProgramId, s)
  else if s.authority_account.is_signer = false then (some .missingRequiredSignature, s)
  else if (encodeVaultConfig { authority := s.authority_account.key, total_deposited := 0, fee_percentage := fee_percentage }).length ≤
      s.vault_account.data.length then
    (none,
     { s with
       vault_account :=
         { s.vault_account with
           data := encodeVaultConfig { authority := s.authority_account.key, total_deposited := 0, fee_percentage := fee_percentage } ++
             s.vault_account.data.drop
               (encodeVaultConfig { authority := s.authority_account.key, total_deposited := 0, fee_percentage := fee_percentage }).length } })
  else
    (some .writeError,
     { s with
       vault_account :=
         { s.vault_account with
           data := (encodeVaultConfig { authority := s.authority_account.key, total_deposited := 0, fee_percentage := fee_percentage }).take
               s.vault_account.data.length } })

/-- The accounts `deposit` binds positionally. -/
structure DepositAccounts where
  vault_account : Account
  user_account : Account
deriving DecidableEq

/-- The `deposit` (lines 81-109): owner check, signer check, decode,
raw `+=` on `total_deposited`, write back, move the lamports. -/
def deposit (program_id : Pubkey) (s : DepositAccounts) (amount : Nat) :
    Option Err × DepositAccounts :=
  if s.vault_account.owner ≠ program_id then (some .incorrectProgramId, s)
  else if s.user_account.is_signer = false then (some .missingRequiredSignature, s)
  else
    match decodeVaultConfig s.vault_account.data with
    | none => (some .decodeError, s)
    | some vault_config =>
      if (encodeVaultConfig { vault_config with
          total_deposited := wrapAdd vault_config.total_deposited amount }).length ≤
          s.vault_account.data.length then
        (none,
         { s with
           vault_account :=
             { s.vault_account with
               data := encodeVaultConfig { vault_config with
                   total_deposited := wrapAdd vault_config.total_deposited amount } ++
                 s.vault_account.data.drop
                   (encodeVaultConfig { vault_config with
                     total_deposited := wrapAdd vault_config.total_deposited amount }).length,
               lamports := wrapAdd s.vault_account.lamports amount },
           user_account :=
             { s.user_account with
               lamports := wrapSub s.user_account.lamports amount } })
      else
        (some .writeError,
         { s with
           vault_account :=
             { s.vault_account with
               data := (encodeVaultConfig { vault_config with
                 total_deposited := wrapAdd vault_config.total_deposited amount }).take
                   s.vault_account.data.length } })

end Reinitialization

/-! ## `src/solana/arithmetic_errors.rs` -/

namespace ArithmeticErrors

/-- The `StakingPool { total_staked, reward_rate, last_update }` (24 bytes). -/
structure StakingPool where
  total_staked : Nat
  reward_rate : Nat
  last_update : Int
deriving DecidableEq

/-- The `UserStake { amount, last_claim }` (16 bytes). -/
structure UserStake where
  amount : Nat
  last_claim : Int
deriving DecidableEq

def encodeStakingPool (r : StakingPool) : Bytes :=
  leBytes 8 r.total_staked ++ leBytes 8 r.reward_rate ++ i64Bytes r.last_update

def decodeStakingPool (bs : Bytes) : Option StakingPool :=
  if bs.length = 24 ∧ validBytes bs = true then
    some { total_staked := leVal (bs.take 8)
           reward_rate := leVal ((bs.drop 8).take 8)
           last_update := i64Val (bs.drop 16) }
  else none

def encodeUserStake (r : UserStake) : Bytes :=
  leBytes 8 r.amount ++ i64Bytes r.last_claim

def decodeUserStake (bs : Bytes) : Option UserStake :=
  if bs.length = 16 ∧ validBytes bs = true then
    some { amount := leVal (bs.take 8), last_claim := i64Val (bs.drop 8) }
  else none

/-- The accounts `stake` binds positionally. -/
structure StakeAccounts where
  pool_account : Account
  user_stake_account : Account
  user_account : Account
deriving DecidableEq

/-- The `stake` of `arithmetic_errors.rs` (lines 50-84): signer check,
decode pool and user stake, then raw wrapping `+=` on both counters
(the file's own comment: "panics in debug or wraps in release"),
write both records back (pool first, then user stake). -/
def stake (_program_id : Pubkey) (s : StakeAccounts) (amount : Nat) :
    Option Err × StakeAccounts :=
  if s.user_account.is_signer = false then (some .missingRequiredSignature, s)
  else
    match decodeStakingPool s.pool_account.data with
    | none => (some .decodeError, s)
    | some pool_data =>
      match decodeUserStake s.user_stake_account.data with
      | none => (some .decodeError, s)
      | some user_data =>
        if (encodeStakingPool { pool_data with
            total_staked := wrapAdd pool_data.total_staked amount }).length ≤
            s.pool_account.data.length then
          if (encodeUserStake { user_data with
              amount := wrapAdd user_data.amount amount }).length ≤
              s.user_stake_account.data.length then
            (none,
             { s with
               pool_account :=
                 { s.pool_account with
                   data := encodeStakingPool { pool_data with
                       total_staked := wrapAdd pool_data.total_staked amount } ++
                     s.pool_account.data.drop
                       (encodeStakingPool { pool_data with
                         total_staked := wrapAdd pool_data.total_staked amount }).length },
               user_stake_account :=
                 { s.user_stake_account with
                   data := encodeUserStake { user_data with
                       amount := wrapAdd user_data.amount amount } ++
                     s.user_stake_account.data.drop
                       (encodeUserStake { user_data with
                         amount := wrapAdd user_data.amount amount }).length } })
          else
            (some .writeError,
             { s with
               pool_account :=
                 { s.pool_account with
                   data := encodeStakingPool { pool_data with
                       total_staked := wrapAdd pool_data.total_staked amount } ++
                     s.pool_account.data.drop
                       (encodeStakingPool { pool_data with
                         total_staked := wrapAdd pool_data.total_staked amount }).length },
               user_stake_account :=
                 { s.user_stake_account with
                   data := (encodeUserStake { user_data with
                     amount := wrapAdd user_data.amount amount }).take
                       s.user_stake_account.data.length } })
        else
          (some .writeError,
           { s with
             pool_account :=
               { s.pool_account with
                 data := (encodeStakingPool { pool_data with
                   total_staked := wrapAdd pool_data.total_staked amount }).take
                     s.pool_account.data.length } })

/-- The accounts `calculate_rewards` binds positionally. -/
structure CalcAccounts where
  pool_account : Account
  user_stake_account : Account
  user_account : Account
  clock_sysvar : Account
deriving DecidableEq

/-- The `calculate_rewards` (lines 86-129): signer check, decode both
records, then `time_elapsed = 1000000 - last_claim` (raw i64 sub),
cast to u64, `base_reward = elapsed * rate` (raw mul),
`user_share = amount / total_staked` (u64 division, panics when the
pool total is zero), `user_reward = base_reward * user_share` —
divide before multiply, exactly as in the source.  The third
component of the result is the `user_reward` value the function
logs; no account state is mutated. -/
def calculate_rewards (_program_id : Pubkey) (s : CalcAccounts) :
    Option Err × CalcAccounts × Nat :=
  if s.user_account.is_signer = false then (some .missingRequiredSignature, s, 0)
  else
    match decodeStakingPool s.pool_account.data with
    | none => (some .decodeError, s, 0)
    | some pool_data =>
      match decodeUserStake s.user_stake_account.data with
      | none => (some .decodeError, s, 0)
      | some user_data =>
        if pool_data.total_staked = 0 then (some .panicked, s, 0)
        else
          (none, s,
           wrapMul
             (wrapMul (i64AsU64 (wrapI64 ((1000000 : Int) - user_data.last_claim)))
               pool_data.reward_rate)
             (user_data.amount / pool_data.total_staked))

/-- The accounts `vulnerable_transfer` binds positionally. -/
structure TransferAccounts where
  from_account : Account
  to_account : Account
  user_account : Account
deriving DecidableEq

/-- The `vulnerable_transfer` (lines 131-155): signer check, then raw
wrapping `-=`/`+=` on the lamport balances with no funds check. -/
def vulnerable_transfer (_program_id : Pubkey) (s : TransferAccounts) (amount : Nat) :
    Option Err × TransferAccounts :=
  if s.user_account.is_signer = false then (some .missingRequiredSignature, s)
  else
    (none,
     { s with
       from_account :=
         { s.from_account with lamports := wrapSub s.from_account.lamports amount },
       to_account :=
         { s.to_account with lamports := wrapAdd s.to_account.lamports amount } })

end ArithmeticErrors

/-! ## `src/solana/rent_exemption.rs` -/

namespace RentExemption

/-- The `UserData { owner, balance, metadata: [u8; 32] }` (72 bytes). -/
structure UserData where
  owner : Pubkey
  balance : Nat
  metadata : Bytes
deriving DecidableEq

def encodeUserData (r : UserData) : Bytes :=
  leBytes 32 r.owner ++ leBytes 8 r.balance ++ r.metadata

def decodeUserData (bs : Bytes) : Option UserData :=
  if bs.length = 72 ∧ validBytes bs = true then
    some { owner := leVal (bs.take 32)
           balance := leVal ((bs.drop 32).take 8)
           metadata := bs.drop 40 }
  else none

/-- The accounts `initialize` binds positionally. -/
structure InitAccounts where
  user_data_account : Account
  user_account : Account
deriving DecidableEq

/-- The `initialize` of `rent_exemption.rs` (lines 45-82): owner check,
signer check, then writes a fresh `UserData` record.  No
rent-exemption (storage viability) check, exactly as in the source. -/
def initialize_user_data (program_id : Pubkey) (s : InitAccounts) :
    Option Err × InitAccounts :=
  if s.user_data_account.owner ≠ program_id then (some .incorrectProgramId, s)
  else if s.user_account.is_signer = false then (some .missingRequiredSignature, s)
  else if (encodeUserData { owner := s.user_account.key, balance := 0, metadata := List.replicate 32 0 }).length ≤
      s.user_data_account.data.length then
    (none,
     { s with
       user_data_account :=
         { s.user_data_account with
           data := encodeUserData { owner := s.user_account.key, balance := 0, metadata := List.replicate 32 0 } ++
             s.user_data_account.data.drop
               (encodeUserData { owner := s.user_account.key, balance := 0, metadata := List.replicate 32 0 }).length } })
  else
    (some .writeError,
     { s with
       user_data_account :=
         { s.user_data_account with
           data := (encodeUserData { owner := s.user_account.key, balance := 0, metadata := List.replicate 32 0 }).take
             s.user_data_account.data.length } })

/-- The accounts `withdraw_all` binds positionally. -/
structure WithdrawAccounts where
  user_data_account : Account
  user_account : Account
  recipient_account : Account
deriving DecidableEq

/-- The `withdraw_all` (lines 84-125): owner check, signer check, decode,
stored-owner check, then sets the data account's lamports to zero and
credits the full balance to the recipient — no minimum-balance clamp,
exactly as in the source. -/
def withdraw_all (program_id : Pubkey) (s : WithdrawAccounts) :
    Option Err × WithdrawAccounts :=
  if s.user_data_account.owner ≠ program_id then (some .incorrectProgramId, s)
  else if s.user_account.is_signer = false then (some .missingRequiredSignature, s)
  else
    match decodeUserData s.user_data_account.data with
    | none => (some .decodeError, s)
    | some user_data =>
      if user_data.owner ≠ s.user_account.key then (some .invalidAccountData, s)
      else
        (none,
         { s with
           user_data_account := { s.user_data_account with lamports := 0 },
           recipient_account :=
             { s.recipient_account with
               lamports := wrapAdd s.recipient_account.lamports
                 s.user_data_account.lamports } })

end RentExemption

/-! ## `src/solana/type_confusion.rs` -/

namespace TypeConfusion

/-- The `UserAccount { owner, balance, rewards }` (48 bytes). -/
structure UserAccount where
  owner : Pubkey
  balance : Nat
  rewards : Nat
deriving DecidableEq

/-- The `AdminAccount { owner, balance, admin_level }` (48 bytes — the
same layout as `UserAccount`). -/
structure AdminAccount where
  owner : Pubkey
  balance : Nat
  admin_level : Nat
deriving DecidableEq

def encodeUserAccount (r : UserAccount) : Bytes :=
  leBytes 32 r.owner ++ leBytes 8 r.balance ++ leBytes 8 r.rewards

def decodeUserAccount (bs : Bytes) : Option UserAccount :=
  if bs.length = 48 ∧ validBytes bs = true then
    some { owner := leVal (bs.take 32)
           balance := leVal ((bs.drop 32).take 8)
           rewards := leVal (bs.drop 40) }
  else none

def encodeAdminAccount (r : AdminAccount) : Bytes :=
  leBytes 32 r.owner ++ leBytes 8 r.balance ++ leBytes 8 r.admin_level

def decodeAdminAccount (bs : Bytes) : Option AdminAccount :=
  if bs.length = 48 ∧ validBytes bs = true then
    some { owner := leVal (bs.take 32)
           balance := leVal ((bs.drop 32).take 8)
           admin_level := leVal (bs.drop 40) }
  else none

/-- The accounts `withdraw_user` binds positionally. -/
structure Accounts where
  user_account_info : Account
  owner_account : Account
deriving DecidableEq

/-- The `withdraw_user` of `type_confusion.rs` (lines 51-92): owner check,
signer check, decode as `UserAccount` (no discriminator), stored-owner
check, funds check against `balance + rewards` (raw wrapping add),
then `balance = balance.saturating_sub(amount)` and write back.  No
lamports are moved. -/
def withdraw_user (program_id : Pubkey) (s : Accounts) (amount : Nat) :
    Option Err × Accounts :=
  if s.user_account_info.owner ≠ program_id then (some .incorrectProgramId, s)
  else if s.owner_account.is_signer = false then (some .missingRequiredSignature, s)
  else
    match decodeUserAccount s.user_account_info.data with
    | none => (some .decodeError, s)
    | some user_data =>
      if user_data.owner ≠ s.owner_account.key then (some .invalidAccountData, s)
      else if wrapAdd user_data.balance user_data.rewards < amount then
        (some .insufficientFunds, s)
      else if (encodeUserAccount { user_data with
          balance := user_data.balance - amount }).length ≤
          s.user_account_info.data.length then
        (none,
         { s with
           user_account_info :=
             { s.user_account_info with
               data := encodeUserAccount { user_data with
                   balance := user_data.balance - amount } ++
                 s.user_account_info.data.drop
                   (encodeUserAccount { user_data with
                     balance := user_data.balance - amount }).length } })
      else
        (some .writeError,
         { s with
           user_account_info :=
             { s.user_account_info with
               data := (encodeUserAccount { user_data with
                 balance := user_data.balance - amount }).take
                   s.user_account_info.data.length } })

/-- The accounts `admin_action` binds positionally. -/
structure AdminAccounts where
  admin_account_info : Account
  admin_signer : Account
deriving DecidableEq

/-- The `admin_action` (lines 94-126): owner check, signer check, decode
as `AdminAccount` (no discriminator), stored-owner check, admin-level
check, then only logs (no state mutation). -/
def admin_action (program_id : Pubkey) (s : AdminAccounts) :
    Option Err × AdminAccounts :=
  if s.admin_account_info.owner ≠ program_id then (some .incorrectProgramId, s)
  else if s.admin_signer.is_signer = false then (some .missingRequiredSignature, s)
  else
    match decodeAdminAccount s.admin_account_info.data with
    | none => (some .decodeError, s)
    | some admin_data =>
      if admin_data.owner ≠ s.admin_signer.key then (some .invalidAccountData, s)
      else if admin_data.admin_level < 5 then (some .invalidAccountData, s)
      else (none, s)

end TypeConfusion

/-! ## `src/solana/arbitrary_cpi.rs` -/

namespace ArbitraryCpi

/-- The accounts `process_instruction` binds positionally. -/
structure Accounts where
  user_account : Account
  target_program : Account
  target_account : Account
deriving DecidableEq

/-- The `process_instruction` of `arbitrary_cpi.rs` (lines 23-61): signer
check, then `invoke`s the caller-chosen target program with
caller-chosen data.  The invoked program is external; it is taken as a
parameter acting on the accounts (on Solana a failed CPI aborts the
whole transaction, so a failing `invokeTarget` is assumed to leave the
accounts as they were, which the claim theorem takes as a
hypothesis). -/
def process_instruction (invokeTarget : Accounts → Option Err × Accounts)
    (s : Accounts) : Option Err × Accounts :=
  if s.user_account.is_signer = false then (some .missingRequiredSignature, s)
  else invokeTarget s

end ArbitraryCpi

/-! ## Concrete example states used by the claim theorems -/

namespace Ex

/-- Program id used by all example states. -/
def pid : Pubkey := 7

/-- A run of `account_data_matching.rs` whose first declared check
(profile ownership, owner 99 against program 7) fails. -/
def admFail : AccountDataMatching.Accounts :=
  { user_profile_account := { key := 1, owner := 99, is_signer := false, lamports := 0, data := [] }
    escrow_account := { key := 2, owner := 7, is_signer := false, lamports := 0, data := [] }
    beneficiary_account := { key := 3, owner := 0, is_signer := false, lamports := 0, data := [] }
    signer_account := { key := 4, owner := 0, is_signer := true, lamports := 0, data := [] } }

/-- Account substitution against `account_data_matching.rs`: the
profile's stored escrow reference is address 70 but the escrow handle
supplied is address 71, and the escrow's stored beneficiary is address
80 but the beneficiary handle supplied is address 81; every declared
check (both ownerships, signer, profile owner, release time) passes. -/
def admSubstitution : AccountDataMatching.Accounts :=
  { user_profile_account :=
      { key := 60, owner := 7, is_signer := false, lamports := 0,
        data := AccountDataMatching.encodeUserProfile
          { owner := 50, escrow_account := 70, total_deposits := 0 } }
    escrow_account :=
      { key := 71, owner := 7, is_signer := false, lamports := 500,
        data := AccountDataMatching.encodeEscrowAccount
          { beneficiary := 80, amount := 500, release_time := 0 } }
    beneficiary_account := { key := 81, owner := 0, is_signer := false, lamports := 0, data := [] }
    signer_account := { key := 50, owner := 0, is_signer := true, lamports := 0, data := [] } }

/-- A vault account owned by a foreign program (owner 99, not 7) with
attacker-chosen record bytes, passed to `missing_owner_check.rs`. -/
def mocForeignVault : MissingOwnerCheck.Accounts :=
  { vault_account :=
      { key := 1, owner := 99, is_signer := false, lamports := 2000,
        data := MissingOwnerCheck.encodeVaultData { authority := 2, balance := 1000000 } }
    authority_account := { key := 2, owner := 0, is_signer := true, lamports := 0, data := [] }
    recipient_account := { key := 3, owner := 0, is_signer := false, lamports := 0, data := [] } }

/-- A transfer request against `missing_signer_check.rs` in which the
debited user account did not sign. -/
def mscUnsigned : MissingSignerCheck.Accounts :=
  { user_account := { key := 1, owner := 0, is_signer := false, lamports := 100, data := [] }
    destination_account := { key := 2, owner := 0, is_signer := false, lamports := 0, data := [] } }

/-- A run of `pda_issues.rs` with a program-owned account at address
11 holding a well-formed record; no seed derivation ties address 11 to
anything. -/
def pdaArbitraryA : PdaIssues.Accounts :=
  { user_account := { key := 5, owner := 0, is_signer := true, lamports := 0, data := [] }
    pda_account :=
      { key := 11, owner := 7, is_signer := false, lamports := 1000,
        data := PdaIssues.encodeUserData { owner := 5, balance := 1000 } }
    recipient_account := { key := 3, owner := 0, is_signer := false, lamports := 0, data := [] } }

/-- The same run with the account at a different address, 12. -/
def pdaArbitraryB : PdaIssues.Accounts :=
  { pdaArbitraryA with
    pda_account := { pdaArbitraryA.pda_account with key := 12 } }

/-- A concrete stand-in for the runtime's `create_program_address`:
on seeds `[b"vault", [bump]]` it derives address `1000 + bump`.  Under
this derivation every bump byte is valid, so the canonical bump — the
first valid one in the `find_program_address` search from 255
downwards — is 255. -/
def bumpDerive : List Bytes → Pubkey → Option Pubkey
  | [_, [b]], _ => some (1000 + b)
  | _, _ => none

/-- The account whose address matches the non-canonical bump 254
under `bumpDerive`. -/
def bumpAccount254 : Account :=
  { key := 1254, owner := 7, is_signer := false, lamports := 0, data := [] }

/-- The account whose address matches the canonical bump 255 under
`bumpDerive`. -/
def bumpAccount255 : Account :=
  { key := 1255, owner := 7, is_signer := false, lamports := 0, data := [] }

/-- A blank program-owned vault (41 zero bytes) about to be
initialized by authority 10 via `reinitialization.rs`. -/
def reinitBlank : Reinitialization.Accounts :=
  { vault_account :=
      { key := 1, owner := 7, is_signer := false, lamports := 0,
        data := List.replicate 41 0 }
    authority_account := { key := 10, owner := 0, is_signer := true, lamports := 0, data := [] } }

/-- The vault exactly as the first `initialize` call leaves it
(authority 10), now presented by a second caller, authority 20. -/
def reinitTaken : Reinitialization.Accounts :=
  { vault_account :=
      { key := 1, owner := 7, is_signer := false, lamports := 0,
        data := Reinitialization.encodeVaultConfig
          { authority := 10, total_deposited := 0, fee_percentage := 1 } }
    authority_account := { key := 20, owner := 0, is_signer := true, lamports := 0, data := [] } }

/-- A staking pool whose total is `u64::MAX - 100`, receiving a stake
of 200 via `arithmetic_errors.rs`. -/
def stakeNearMax : ArithmeticErrors.StakeAccounts :=
  { pool_account :=
      { key := 1, owner := 7, is_signer := false, lamports := 0,
        data := ArithmeticErrors.encodeStakingPool
          { total_staked := 18446744073709551515, reward_rate := 0, last_update := 0 } }
    user_stake_account :=
      { key := 2, owner := 7, is_signer := false, lamports := 0,
        data := ArithmeticErrors.encodeUserStake { amount := 0, last_claim := 0 } }
    user_account := { key := 3, owner := 0, is_signer := true, lamports := 0, data := [] } }

/-- A reward calculation for a user holding 10 of a 1,000,000-unit
pool with reward base 1,000,000 (rate 1 over 1,000,000 elapsed). -/
def calcSmallStake : ArithmeticErrors.CalcAccounts :=
  { pool_account :=
      { key := 1, owner := 7, is_signer := false, lamports := 0,
        data := ArithmeticErrors.encodeStakingPool
          { total_staked := 1000000, reward_rate := 1, last_update := 0 } }
    user_stake_account :=
      { key := 2, owner := 7, is_signer := false, lamports := 0,
        data := ArithmeticErrors.encodeUserStake { amount := 10, last_claim := 0 } }
    user_account := { key := 3, owner := 0, is_signer := true, lamports := 0, data := [] }
    clock_sysvar := { key := 4, owner := 0, is_signer := false, lamports := 0, data := [] } }

/-- A data account holding 1000 lamports (say with minimum viable
balance 890 for its 72 bytes) whose owner asks `rent_exemption.rs` to
withdraw everything. -/
def rentWithdraw : RentExemption.WithdrawAccounts :=
  { user_data_account :=
      { key := 1, owner := 7, is_signer := false, lamports := 1000,
        data := RentExemption.encodeUserData
          { owner := 10, balance := 0, metadata := List.replicate 32 0 } }
    user_account := { key := 10, owner := 0, is_signer := true, lamports := 0, data := [] }
    recipient_account := { key := 3, owner := 0, is_signer := false, lamports := 0, data := [] } }

/-- A `type_confusion.rs` withdrawal: the record holds balance 100 and
rewards 1000, and the owner requests 1100 — more than the balance but
within `balance + rewards`. -/
def tcWithdraw : TypeConfusion.Accounts :=
  { user_account_info :=
      { key := 1, owner := 7, is_signer := false, lamports := 0,
        data := TypeConfusion.encodeUserAccount
          { owner := 10, balance := 100, rewards := 1000 } }
    owner_account := { key := 10, owner := 0, is_signer := true, lamports := 0, data := [] } }

end Ex

/-! ## Theorems

Abort-frame lemmas: every operation of the corpus, run to a failure of
one of its declared checks (any error other than the borsh
serialization `writeError`), leaves its accounts exactly as it found
them. -/

theorem adm_process_abort_frame : ∀ (program_id : Pubkey)
    (s : AccountDataMatching.Accounts) (e : Err),
    (AccountDataMatching.process_instruction program_id s).1 = some e →
    e ≠ Err.writeError →
    (AccountDataMatching.process_instruction program_id s).2 = s := by
  intro program_id s e h hv
  unfold AccountDataMatching.process_instruction at h ⊢
  repeat' split <;> simp_all

theorem adm_token_withdraw_abort_frame : ∀ (program_id : Pubkey)
    (s : AccountDataMatching.TwAccounts) (e : Err),
    (AccountDataMatching.vulnerable_token_withdraw program_id s).1 = some e →
    e ≠ Err.writeError →
    (AccountDataMatching.vulnerable_token_withdraw program_id s).2 = s := by
  intro program_id s e h hv
  unfold AccountDataMatching.vulnerable_token_withdraw at h ⊢
  repeat' split <;> simp_all

theorem moc_process_abort_frame : ∀ (program_id : Pubkey)
    (s : MissingOwnerCheck.Accounts) (amount : Nat) (e : Err),
    (MissingOwnerCheck.process_instruction program_id s amount).1 = some e →
    e ≠ Err.writeError →
    (MissingOwnerCheck.process_instruction program_id s amount).2 = s := by
  intro program_id s amount e h hv
  unfold MissingOwnerCheck.process_instruction at h ⊢
  repeat' split <;> simp_all

theorem msc_process_abort_frame : ∀ (program_id : Pubkey)
    (s : MissingSignerCheck.Accounts) (amount : Nat) (e : Err),
    (MissingSignerCheck.process_instruction program_id s amount).1 = some e →
    e ≠ Err.writeError →
    (MissingSignerCheck.process_instruction program_id s amount).2 = s := by
  intro program_id s amount e h hv
  simp [MissingSignerCheck.process_instruction] at h

theorem pda_process_abort_frame : ∀ (program_id : Pubkey)
    (s : PdaIssues.Accounts) (amount : Nat) (e : Err),
    (PdaIssues.process_instruction program_id s amount).1 = some e →
    e ≠ Err.writeError →
    (PdaIssues.process_instruction program_id s amount).2 = s := by
  intro program_id s amount e h hv
  unfold PdaIssues.process_instruction at h ⊢
  repeat' split <;> simp_all

theorem pda_bump_abort_frame : ∀
    (create_program_address : List Bytes → Pubkey → Option Pubkey)
    (program_id : Pubkey) (pda_account : Account) (bump : Nat) (e : Err),
    (PdaIssues.vulnerable_with_bump create_program_address program_id
      pda_account bump).1 = some e →
    e ≠ Err.writeError →
    (PdaIssues.vulnerable_with_bump create_program_address program_id
      pda_account bump).2 = pda_account := by
  intro cpa program_id a bump e h hv
  unfold PdaIssues.vulnerable_with_bump at h ⊢
  repeat' split <;> simp_all

theorem reinit_init_abort_frame : ∀ (program_id : Pubkey)
    (s : Reinitialization.Accounts) (fee_percentage : Nat) (e : Err),
    (Reinitialization.initialize_vault program_id s fee_percentage).1 = some e →
    e ≠ Err.writeError →
    (Reinitialization.initialize_vault program_id s fee_percentage).2 = s := by
  intro program_id s fee e h hv
  unfold Reinitialization.initialize_vault at h ⊢
  repeat' split <;> simp_all

theorem reinit_deposit_abort_frame : ∀ (program_id : Pubkey)
    (s : Reinitialization.DepositAccounts) (amount : Nat) (e : Err),
    (Reinitialization.deposit program_id s amount).1 = some e →
    e ≠ Err.writeError →
    (Reinitialization.deposit program_id s amount).2 = s := by
  intro program_id s amount e h hv
  unfold Reinitialization.deposit at h ⊢
  repeat' split <;> simp_all

theorem ae_stake_abort_frame : ∀ (program_id : Pubkey)
    (s : ArithmeticErrors.StakeAccounts) (amount : Nat) (e : Err),
    (ArithmeticErrors.stake program_id s amount).1 = some e →
    e ≠ Err.writeError →
    (ArithmeticErrors.stake program_id s amount).2 = s := by
  intro program_id s amount e h hv
  unfold ArithmeticErrors.stake at h ⊢
  repeat' split <;> simp_all

theorem ae_calc_abort_frame : ∀ (program_id : Pubkey)
    (s : ArithmeticErrors.CalcAccounts) (e : Err),
    (ArithmeticErrors.calculate_rewards program_id s).1 = some e →
    e ≠ Err.writeError →
    (ArithmeticErrors.calculate_rewards program_id s).2.1 = s := by
  intro program_id s e h hv
  unfold ArithmeticErrors.calculate_rewards at h ⊢
  repeat' split <;> simp_all

theorem ae_transfer_abort_frame : ∀ (program_id : Pubkey)
    (s : ArithmeticErrors.TransferAccounts) (amount : Nat) (e : Err),
    (ArithmeticErrors.vulnerable_transfer program_id s amount).1 = some e →
    e ≠ Err.writeError →
    (ArithmeticErrors.vulnerable_transfer program_id s amount).2 = s := by
  intro program_id s amount e h hv
  unfold ArithmeticErrors.vulnerable_transfer at h ⊢
  repeat' split <;> simp_all

theorem rent_init_abort_frame : ∀ (program_id : Pubkey)
    (s : RentExemption.InitAccounts) (e : Err),
    (RentExemption.initialize_user_data program_id s).1 = some e →
    e ≠ Err.writeError →
    (RentExemption.initialize_user_data program_id s).2 = s := by
  intro program_id s e h hv
  unfold RentExemption.initialize_user_data at h ⊢
  repeat' split <;> simp_all

theorem rent_withdraw_abort_frame : ∀ (program_id : Pubkey)
    (s : RentExemption.WithdrawAccounts) (e : Err),
    (RentExemption.withdraw_all program_id s).1 = some e →
    e ≠ Err.writeError →
    (RentExemption.withdraw_all program_id s).2 = s := by
  intro program_id s e h hv
  unfold RentExemption.withdraw_all at h ⊢
  repeat' split <;> simp_all

theorem tc_withdraw_abort_frame : ∀ (program_id : Pubkey)
    (s : TypeConfusion.Accounts) (amount : Nat) (e : Err),
    (TypeConfusion.withdraw_user program_id s amount).1 = some e →
    e ≠ Err.writeError →
    (TypeConfusion.withdraw_user program_id s amount).2 = s := by
  intro program_id s amount e h hv
  unfold TypeConfusion.withdraw_user at h ⊢
  repeat' split <;> simp_all

theorem tc_admin_abort_frame : ∀ (program_id : Pubkey)
    (s : TypeConfusion.AdminAccounts) (e : Err),
    (TypeConfusion.admin_action program_id s).1 = some e →
    e ≠ Err.writeError →
    (TypeConfusion.admin_action program_id s).2 = s := by
  intro program_id s e h hv
  unfold TypeConfusion.admin_action at h ⊢
  repeat' split <;> simp_all

theorem cpi_process_abort_frame : ∀
    (invokeTarget : ArbitraryCpi.Accounts → Option Err × ArbitraryCpi.Accounts),
    (∀ s e, (invokeTarget s).1 = some e → (invokeTarget s).2 = s) →
    ∀ (s : ArbitraryCpi.Accounts) (e : Err),
    (ArbitraryCpi.process_instruction invokeTarget s).1 = some e →
    e ≠ Err.writeError →
    (ArbitraryCpi.process_instruction invokeTarget s).2 = s := by
  intro invokeTarget hinv s e h hv
  unfold ArbitraryCpi.process_instruction at h ⊢
  split at h
  · rename_i hs
    simp only [if_pos hs]
  · rename_i hs
    simp only [if_neg hs]
    exact hinv s e h

/-- **C1**: for every operation of the corpus, if any declared
validation check fails (every abort except the borsh serialization
`writeError`, which is a write failure and not a declared check), the
operation aborts with that failure and every involved account —
`lamports` and `data` included — is byte-identical to its pre-call
state: no partial mutation is observable on such a run.  One conjunct
per operation; for `arbitrary_cpi.rs` the invoked external program is
universally quantified and assumed to roll back on its own failure,
which the Solana runtime guarantees for a failed CPI. -/
theorem c1_failed_checks_mutate_nothing :
    (∀ (program_id : Pubkey) (s : AccountDataMatching.Accounts) (e : Err),
      (AccountDataMatching.process_instruction program_id s).1 = some e →
      e ≠ Err.writeError →
      (AccountDataMatching.process_instruction program_id s).2 = s) ∧
    (∀ (program_id : Pubkey) (s : AccountDataMatching.TwAccounts) (e : Err),
      (AccountDataMatching.vulnerable_token_withdraw program_id s).1 = some e →
      e ≠ Err.writeError →
      (AccountDataMatching.vulnerable_token_withdraw program_id s).2 = s) ∧
    (∀ (program_id : Pubkey) (s : MissingOwnerCheck.Accounts) (amount : Nat) (e : Err),
      (MissingOwnerCheck.process_instruction program_id s amount).1 = some e →
      e ≠ Err.writeError →
      (MissingOwnerCheck.process_instruction program_id s amount).2 = s) ∧
    (∀ (program_id : Pubkey) (s : MissingSignerCheck.Accounts) (amount : Nat) (e : Err),
      (MissingSignerCheck.process_instruction program_id s amount).1 = some e →
      e ≠ Err.writeError →
      (MissingSignerCheck.process_instruction program_id s amount).2 = s) ∧
    (∀ (program_id : Pubkey) (s : PdaIssues.Accounts) (amount : Nat) (e : Err),
      (PdaIssues.process_instruction program_id s amount).1 = some e →
      e ≠ Err.writeError →
      (PdaIssues.process_instruction program_id s amount).2 = s) ∧
    (∀ (create_program_address : List Bytes → Pubkey → Option Pubkey)
      (program_id : Pubkey) (pda_account : Account) (bump : Nat) (e : Err),
      (PdaIssues.vulnerable_with_bump create_program_address program_id
        pda_account bump).1 = some e →
      e ≠ Err.writeError →
      (PdaIssues.vulnerable_with_bump create_program_address program_id
        pda_account bump).2 = pda_account) ∧
    (∀ (program_id : Pubkey) (s : Reinitialization.Accounts) (fee_percentage : Nat) (e : Err),
      (Reinitialization.initialize_vault program_id s fee_percentage).1 = some e →
      e ≠ Err.writeError →
      (Reinitialization.initialize_vault program_id s fee_percentage).2 = s) ∧
    (∀ (program_id : Pubkey) (s : Reinitialization.DepositAccounts) (amount : Nat) (e : Err),
      (Reinitialization.deposit program_id s amount).1 = some e →
      e ≠ Err.writeError →
      (Reinitialization.deposit program_id s amount).2 = s) ∧
    (∀ (program_id : Pubkey) (s : ArithmeticErrors.StakeAccounts) (amount : Nat) (e : Err),
      (ArithmeticErrors.stake program_id s amount).1 = some e →
      e ≠ Err.writeError →
      (ArithmeticErrors.stake program_id s amount).2 = s) ∧
    (∀ (program_id : Pubkey) (s : ArithmeticErrors.CalcAccounts) (e : Err),
      (ArithmeticErrors.calculate_rewards program_id s).1 = some e →
      e ≠ Err.writeError →
      (ArithmeticErrors.calculate_rewards program_id s).2.1 = s) ∧
    (∀ (program_id : Pubkey) (s : ArithmeticErrors.TransferAccounts) (amount : Nat) (e : Err),
      (ArithmeticErrors.vulnerable_transfer program_id s amount).1 = some e →
      e ≠ Err.writeError →
      (ArithmeticErrors.vulnerable_transfer program_id s amount).2 = s) ∧
    (∀ (program_id : Pubkey) (s : RentExemption.InitAccounts) (e : Err),
      (RentExemption.initialize_user_data program_id s).1 = some e →
      e ≠ Err.writeError →
      (RentExemption.initialize_user_data program_id s).2 = s) ∧
    (∀ (program_id : Pubkey) (s : RentExemption.WithdrawAccounts) (e : Err),
      (RentExemption.withdraw_all program_id s).1 = some e →
      e ≠ Err.writeError →
      (RentExemption.withdraw_all program_id s).2 = s) ∧
    (∀ (program_id : Pubkey) (s : TypeConfusion.Accounts) (amount : Nat) (e : Err),
      (TypeConfusion.withdraw_user program_id s amount).1 = some e →
      e ≠ Err.writeError →
      (TypeConfusion.withdraw_user program_id s amount).2 = s) ∧
    (∀ (program_id : Pubkey) (s : TypeConfusion.AdminAccounts) (e : Err),
      (TypeConfusion.admin_action program_id s).1 = some e →
      e ≠ Err.writeError →
      (TypeConfusion.admin_action program_id s).2 = s) ∧
    (∀ (invokeTarget : ArbitraryCpi.Accounts → Option Err × ArbitraryCpi.Accounts),
      (∀ s e, (invokeTarget s).1 = some e → (invokeTarget s).2 = s) →
      ∀ (s : ArbitraryCpi.Accounts) (e : Err),
      (ArbitraryCpi.process_instruction invokeTarget s).1 = some e →
      e ≠ Err.writeError →
      (ArbitraryCpi.process_instruction invokeTarget s).2 = s) :=
  ⟨adm_process_abort_frame, adm_token_withdraw_abort_frame,
   moc_process_abort_frame, msc_process_abort_frame,
   pda_process_abort_frame, pda_bump_abort_frame,
   reinit_init_abort_frame, reinit_deposit_abort_frame,
   ae_stake_abort_frame, ae_calc_abort_frame, ae_transfer_abort_frame,
   rent_init_abort_frame, rent_withdraw_abort_frame,
   tc_withdraw_abort_frame, tc_admin_abort_frame,
   cpi_process_abort_frame⟩

/-- Witness for C1: on the concrete run `Ex.admFail` the first
declared check (profile ownership) fails with `IncorrectProgramId`
and the accounts are returned untouched. -/
theorem c1_failed_checks_mutate_nothing_witness :
    (AccountDataMatching.process_instruction Ex.pid Ex.admFail).2 = Ex.admFail :=
  c1_failed_checks_mutate_nothing.1 Ex.pid Ex.admFail Err.incorrectProgramId
    (by decide) (by decide)

theorem encodeUserAccount_length (r : TypeConfusion.UserAccount) :
    (TypeConfusion.encodeUserAccount r).length = 48 := by
  simp [TypeConfusion.encodeUserAccount, leBytes_length]

theorem decodeUserAccount_length {bs : Bytes} {r : TypeConfusion.UserAccount}
    (h : TypeConfusion.decodeUserAccount bs = some r) : bs.length = 48 := by
  unfold TypeConfusion.decodeUserAccount at h
  split at h
  · rename_i hc; exact hc.1
  · cases h

/-- **C10**: whenever `withdraw_user` of `type_confusion.rs` passes
its checks (the run succeeds), the only change it makes is to the
record held in `user_account_info.data`: the record written back is
the record read with its `balance` replaced by
`balance.saturating_sub(amount)` (`Nat` subtraction, clamped at zero,
never wrapping, even when `amount` exceeds `balance`), while `owner`
and `rewards` are written back exactly as read; no lamport balance
and no other account changes. -/
theorem c10_withdraw_user_frame (program_id : Pubkey) (s : TypeConfusion.Accounts)
    (amount : Nat) (user_data : TypeConfusion.UserAccount)
    (hd : TypeConfusion.decodeUserAccount s.user_account_info.data = some user_data)
    (h : (TypeConfusion.withdraw_user program_id s amount).1 = none) :
    (TypeConfusion.withdraw_user program_id s amount).2 =
      { s with user_account_info :=
        { s.user_account_info with
          data := TypeConfusion.encodeUserAccount
            { user_data with balance := user_data.balance - amount } } } := by
  have hlen : s.user_account_info.data.length = 48 := decodeUserAccount_length hd
  have helen := encodeUserAccount_length
    { user_data with balance := user_data.balance - amount }
  have hdrop : s.user_account_info.data.drop
      (TypeConfusion.encodeUserAccount
        { user_data with balance := user_data.balance - amount }).length = [] := by
    rw [helen, ← hlen]
    exact List.drop_length _
  unfold TypeConfusion.withdraw_user at h ⊢
  simp only [hd] at h ⊢
  repeat' split <;> simp_all

/-- Witness for C10: the record `{owner 10, balance 100, rewards
1000}` debited by 1100 (more than the balance, within balance +
rewards) is written back as `{owner 10, balance 0, rewards 1000}`. -/
theorem c10_withdraw_user_frame_witness :
    (TypeConfusion.withdraw_user Ex.pid Ex.tcWithdraw 1100).2 =
      { Ex.tcWithdraw with user_account_info :=
        { Ex.tcWithdraw.user_account_info with
          data := TypeConfusion.encodeUserAccount
            { owner := 10, balance := 0, rewards := 1000 } } } :=
  c10_withdraw_user_frame Ex.pid Ex.tcWithdraw 1100
    { owner := 10, balance := 100, rewards := 1000 } (by decide) (by decide)

/-- **C2** (bug evidence): `missing_owner_check.rs` decodes and acts
on a vault account whose controlling program (99) is not the expected
program (7): the run succeeds — there is no `IncorrectOwner` failure
and no ownership check before the decode — the attacker-chosen record
is debited and 500 lamports flow to the recipient. -/
theorem c2_missing_owner_check_accepts_foreign_account :
    Ex.mocForeignVault.vault_account.owner ≠ Ex.pid ∧
    (MissingOwnerCheck.process_instruction Ex.pid Ex.mocForeignVault 500).1 = none ∧
    MissingOwnerCheck.decodeVaultData
      ((MissingOwnerCheck.process_instruction Ex.pid
        Ex.mocForeignVault 500).2.vault_account.data) =
      some { authority := 2, balance := 999500 } ∧
    (MissingOwnerCheck.process_instruction Ex.pid
      Ex.mocForeignVault 500).2.recipient_account.lamports = 500 := by
  decide

/-- **C3** (bug evidence): `missing_signer_check.rs` moves 50 lamports
out of a user account whose `is_signer` is false: the run succeeds
with no `MissingSignature` failure and the debited account's balance
drops from 100 to 50. -/
theorem c3_missing_signer_check_transfers_unsigned :
    Ex.mscUnsigned.user_account.is_signer = false ∧
    (MissingSignerCheck.process_instruction Ex.pid Ex.mscUnsigned 50).1 = none ∧
    (MissingSignerCheck.process_instruction Ex.pid
      Ex.mscUnsigned 50).2.user_account.lamports = 50 ∧
    (MissingSignerCheck.process_instruction Ex.pid
      Ex.mscUnsigned 50).2.destination_account.lamports = 50 := by
  decide

/-- **C4** (bug evidence): in `account_data_matching.rs` the profile's
stored escrow reference (70) differs from the supplied escrow handle
(71) and the escrow's stored beneficiary (80) differs from the
supplied beneficiary handle (81), yet with every other declared check
passing the run succeeds — no `AccountMismatch` — and pays the 500
lamports to the substituted beneficiary. -/
theorem c4_relationship_mismatch_not_rejected :
    (AccountDataMatching.decodeUserProfile
      Ex.admSubstitution.user_profile_account.data).map
      (fun r => r.escrow_account) = some 70 ∧
    Ex.admSubstitution.escrow_account.key = 71 ∧
    (AccountDataMatching.decodeEscrowAccount
      Ex.admSubstitution.escrow_account.data).map
      (fun r => r.beneficiary) = some 80 ∧
    Ex.admSubstitution.beneficiary_account.key = 81 ∧
    (AccountDataMatching.process_instruction Ex.pid Ex.admSubstitution).1 = none ∧
    (AccountDataMatching.process_instruction Ex.pid
      Ex.admSubstitution).2.beneficiary_account.lamports = 500 := by
  decide

/-- **C5** (bug evidence): `pda_issues.rs` never recomputes the
derived address — the same run succeeds with the PDA account at
address 11 and at address 12, so at least one of them cannot equal any
derivation and no `InvalidDerivedAddress` failure occurs — and
`vulnerable_with_bump` accepts both the non-canonical bump 254 and the
canonical bump 255 (which derive different addresses), with no
`NonCanonicalBump` failure (the error type of the corpus does not even
contain one). -/
theorem c5_pda_never_recomputed_and_bump_unvalidated :
    (PdaIssues.process_instruction Ex.pid Ex.pdaArbitraryA 100).1 = none ∧
    (PdaIssues.process_instruction Ex.pid Ex.pdaArbitraryB 100).1 = none ∧
    Ex.pdaArbitraryA.pda_account.key ≠ Ex.pdaArbitraryB.pda_account.key ∧
    (PdaIssues.vulnerable_with_bump Ex.bumpDerive Ex.pid Ex.bumpAccount254 254).1 = none ∧
    (PdaIssues.vulnerable_with_bump Ex.bumpDerive Ex.pid Ex.bumpAccount255 255).1 = none ∧
    Ex.bumpDerive [PdaIssues.vaultSeed, [254]] Ex.pid ≠
      Ex.bumpDerive [PdaIssues.vaultSeed, [255]] Ex.pid := by
  decide

/-- **C6** (bug evidence): calling `initialize` of
`reinitialization.rs` twice succeeds twice — no `AlreadyInitialized`
failure — and the second call hands the vault to the second caller:
authority 10 set by the first call is replaced by 20 (and any deposit
total would be reset to 0). -/
theorem c6_second_initialize_takes_over :
    (Reinitialization.initialize_vault Ex.pid Ex.reinitBlank 1).1 = none ∧
    (Reinitialization.initialize_vault Ex.pid
      Ex.reinitBlank 1).2.vault_account.data = Ex.reinitTaken.vault_account.data ∧
    (Reinitialization.initialize_vault Ex.pid Ex.reinitTaken 99).1 = none ∧
    Reinitialization.decodeVaultConfig
      ((Reinitialization.initialize_vault Ex.pid
        Ex.reinitTaken 99).2.vault_account.data) =
      some { authority := 20, total_deposited := 0, fee_percentage := 99 } ∧
    (10 : Pubkey) ≠ 20 := by
  decide

/-- **C7** (bug evidence): `stake` of `arithmetic_errors.rs` adds 200
to a pool total of `u64::MAX - 100` with raw wrapping addition: the
run succeeds and the total wraps around to 99, where the spec's
checked addition fails with `ArithmeticOverflow`. -/
theorem c7_stake_wraps_instead_of_failing :
    (ArithmeticErrors.stake Ex.pid Ex.stakeNearMax 200).1 = none ∧
    ArithmeticErrors.decodeStakingPool
      ((ArithmeticErrors.stake Ex.pid Ex.stakeNearMax 200).2.pool_account.data) =
      some { total_staked := 99, reward_rate := 0, last_update := 0 } ∧
    checkedAdd 18446744073709551515 200 = .error .arithmeticOverflow := by
  decide

/-- **C8** (bug evidence): `calculate_rewards` of
`arithmetic_errors.rs` divides before multiplying: for a user stake of
10 in a pool of 1,000,000 with reward base 1,000,000 it logs reward 0,
while the spec's `proportionalShare` (multiply first) yields 10. -/
theorem c8_rewards_divide_before_multiply :
    (ArithmeticErrors.calculate_rewards Ex.pid Ex.calcSmallStake).1 = none ∧
    (ArithmeticErrors.calculate_rewards Ex.pid Ex.calcSmallStake).2.2 = 0 ∧
    proportionalShare 10 1000000 1000000 = .ok 10 := by
  decide

/-- **C9** (bug evidence): `withdraw_all` of `rent_exemption.rs`
drains the data account to 0 lamports instead of clamping to
`computeWithdrawable 1000 890 = 110`: the remaining balance 0 is below
the minimum viable balance 890. -/
theorem c9_withdraw_all_drains_below_minimum :
    (RentExemption.withdraw_all Ex.pid Ex.rentWithdraw).1 = none ∧
    (RentExemption.withdraw_all Ex.pid
      Ex.rentWithdraw).2.user_data_account.lamports = 0 ∧
    (RentExemption.withdraw_all Ex.pid
      Ex.rentWithdraw).2.recipient_account.lamports = 1000 ∧
    computeWithdrawable 1000 890 = 110 ∧
    (RentExemption.withdraw_all Ex.pid
      Ex.rentWithdraw).2.user_data_account.lamports < 890 := by
  decide

end VulnSol
